import Mathlib

/-!
Verification of `crates/maple_core/src/stdio_server/service.rs` (vim-clap).

The source is an event-driven session supervisor: provider sessions run an
event loop in one of two modes (debounced / immediate), plugin sessions run a
single-timer debounced loop, and a `ServiceManager` registry owns the
send-handles.  Each loop iteration is embedded as a pure step function on an
explicit state, taking the result of every capability hook that the iteration
might invoke as input and emitting the trace of hook invocations it performs.
Durations are modelled in milliseconds as `Nat`; `tokio::time::sleep` deadlines
become absolute instants (`now + delay`).
-/

namespace VimClap

/-- Session ids are caller-assigned integers (`pub type ProviderSessionId = u64`). -/
abbrev ProviderSessionId := Nat

/-- Key events are opaque payloads forwarded to `on_key_event`. -/
abbrev KeyEvent := Nat

/-- `InternalProviderEvent` from `stdio_server::input`: the two internal
lifecycle signals matched by the provider event loops. -/
inductive InternalProviderEvent
  | Terminate
  | OnInitialize
deriving DecidableEq, Repr

/-- `ProviderEvent` from `stdio_server::input`: the events a provider session
dequeues. -/
inductive ProviderEvent
  | NewSession
  | Internal (e : InternalProviderEvent)
  | Exit
  | OnMove
  | OnTyped
  | Key (k : KeyEvent)
deriving DecidableEq, Repr

/-- Modelled from the spec: `ProviderSource` lives in
`stdio_server::provider`, outside the given source file.  The event loop only
distinguishes the bounded variant with a known total count
(`ProviderSource::Small { total, .. }`); every other scale category is
collapsed into one constructor. -/
inductive ProviderSource
  | Small (total : Nat)
  | Other
deriving DecidableEq, Repr

/-- Result of one capability-hook invocation (`Result<(), Error>` collapsed to
its success/failure shape). -/
inductive HookRes
  | ok
  | err
deriving DecidableEq, Repr

/-- Results the environment supplies for the hooks one loop iteration may
invoke. -/
structure HookResults where
  init : HookRes
  move : HookRes
  typed : HookRes
  key : HookRes
  record : HookRes
deriving DecidableEq, Repr

/-- The observable hook invocations a loop iteration performs, in order. -/
inductive HookCall
  | onInitialize
  | onMove
  | onTyped
  | onKeyEvent (k : KeyEvent)
  | onTerminate
  | recordInput
deriving DecidableEq, Repr

/-- What the iteration does to the loop: continue, `break`, or hit the
`unreachable!()` assertion (`NewSession` once running). -/
inductive LoopControl
  | cont
  | brk
  | fatal
deriving DecidableEq, Repr

/-- `DELAY`: the default typed-debounce delay, 200ms. -/
def DELAY : Nat := 200

/-- `NEVER`: the effectively-infinite timer duration, 1 year, in ms. -/
def NEVER : Nat := 365 * 24 * 60 * 60 * 1000

/-- `on_move_delay`: the fixed 50ms move-debounce delay. -/
def on_move_delay : Nat := 50

/-- The mutable local state of `run_event_loop_with_debounce`: the two dirty
flags, the two timer deadlines, and the adaptive typed delay. -/
structure DebounceState where
  on_move_dirty : Bool
  on_move_timer : Nat
  on_typed_dirty : Bool
  on_typed_delay : Nat
  on_typed_timer : Nat
deriving DecidableEq, Repr

/-- The state of the debounced loop right after its local declarations. -/
def initDebounceState (now : Nat) : DebounceState :=
  { on_move_dirty := false
    on_move_timer := now + NEVER
    on_typed_dirty := false
    on_typed_delay := DELAY
    on_typed_timer := now + NEVER }

/-- The three ready branches of the debounced loop's `tokio::select!`: a queue
item (`none` = channel closed), the move timer firing, the typed timer
firing. -/
inductive DebounceInput
  | recv (e : Option ProviderEvent)
  | moveTimer
  | typedTimer
deriving DecidableEq, Repr

/-- Output of one debounced-loop iteration. -/
structure DStep where
  calls : List HookCall
  state : DebounceState
  control : LoopControl
deriving DecidableEq, Repr

/-- The typed-delay adaptation performed after `on_initialize` succeeds:
`Small { total, .. }` with `total < 10_000 / 100_000 / 200_000` lowers the
delay to 10/50/100ms, anything else leaves it unchanged. -/
def adjustTypedDelay (src : ProviderSource) (d : Nat) : Nat :=
  match src with
  | .Small total =>
    if total < 10000 then 10
    else if total < 100000 then 50
    else if total < 200000 then 100
    else d
  | .Other => d

/-- One iteration of `run_event_loop_with_debounce`.  `src` is the value read
from `ctx.provider_source`, `hr` the hook results, `now` the current instant.
A timer branch whose dirty guard is false is disabled by `tokio::select!`; it
is modelled as the identity. -/
def stepDebounce (src : ProviderSource) (hr : HookResults) (now : Nat)
    (s : DebounceState) : DebounceInput → DStep
  | .recv none => ⟨[], s, .brk⟩
  | .recv (some e) =>
    match e with
    | .NewSession => ⟨[], s, .fatal⟩
    | .Internal .Terminate => ⟨[.onTerminate], s, .brk⟩
    | .Internal .OnInitialize =>
      match hr.init with
      | .ok =>
        ⟨[.onInitialize, .onMove],
         { s with on_typed_delay := adjustTypedDelay src s.on_typed_delay }, .cont⟩
      | .err => ⟨[.onInitialize], s, .cont⟩
    | .Exit => ⟨[.onTerminate], s, .brk⟩
    | .OnMove =>
      ⟨[], { s with on_move_dirty := true, on_move_timer := now + on_move_delay }, .cont⟩
    | .OnTyped =>
      ⟨[], { s with on_typed_dirty := true, on_typed_timer := now + s.on_typed_delay }, .cont⟩
    | .Key k => ⟨[.onKeyEvent k], s, .cont⟩
  | .moveTimer =>
    if s.on_move_dirty then
      ⟨[.onMove], { s with on_move_dirty := false, on_move_timer := now + NEVER }, .cont⟩
    else ⟨[], s, .cont⟩
  | .typedTimer =>
    if s.on_typed_dirty then
      ⟨[.recordInput, .onTyped, .onMove],
       { s with on_typed_dirty := false, on_typed_timer := now + NEVER }, .cont⟩
    else ⟨[], s, .cont⟩

/-- Output of one immediate-mode iteration (the loop has no local state). -/
structure NDStep where
  calls : List HookCall
  control : LoopControl
deriving DecidableEq, Repr

/-- One iteration of `run_event_loop_without_debounce` on the dequeued item
(`none` = channel closed, which ends the `while let`). -/
def stepNoDebounce (hr : HookResults) : Option ProviderEvent → NDStep
  | none => ⟨[], .brk⟩
  | some e =>
    match e with
    | .NewSession => ⟨[], .fatal⟩
    | .Internal .OnInitialize =>
      match hr.init with
      | .ok => ⟨[.onInitialize, .onMove], .cont⟩
      | .err => ⟨[.onInitialize], .cont⟩
    | .Internal .Terminate => ⟨[.onTerminate], .brk⟩
    | .Exit => ⟨[.onTerminate], .brk⟩
    | .OnMove => ⟨[.onMove], .cont⟩
    | .OnTyped => ⟨[.recordInput, .onTyped], .cont⟩
    | .Key k => ⟨[.onKeyEvent k], .cont⟩

/-- Run the debounced loop over a sequence of ready branches at a fixed
instant, accumulating the hook calls, stopping when the loop breaks. -/
def runLoopD (src : ProviderSource) (hr : HookResults) (now : Nat)
    (s : DebounceState) : List DebounceInput → List HookCall
  | [] => []
  | i :: rest =>
    let out := stepDebounce src hr now s i
    match out.control with
    | .cont => out.calls ++ runLoopD src hr now out.state rest
    | _ => out.calls

/-- Run the immediate-mode loop over a queue prefix, accumulating the hook
calls, stopping when the loop breaks. -/
def runLoopND (hr : HookResults) : List (Option ProviderEvent) → List HookCall
  | [] => []
  | e :: rest =>
    let out := stepNoDebounce hr e
    match out.control with
    | .cont => out.calls ++ runLoopND hr rest
    | _ => out.calls

/-- Autocmd payloads are opaque values forwarded to `on_autocmd`. -/
abbrev AutocmdEvent := Nat

/-- `PluginEvent` from `stdio_server::input`: the single variant a plugin
session dequeues. -/
inductive PluginEvent
  | Autocmd (a : AutocmdEvent)
deriving DecidableEq, Repr

/-- The mutable local state of `PluginSession::start_event_loop`. -/
structure PluginState where
  pending_autocmd : Option AutocmdEvent
  notification_dirty : Bool
  notification_timer : Nat
deriving DecidableEq, Repr

/-- The plugin loop's state right after its local declarations. -/
def initPluginState (now : Nat) : PluginState :=
  { pending_autocmd := none
    notification_dirty := false
    notification_timer := now + NEVER }

/-- The two ready branches of the plugin loop's `tokio::select!`. -/
inductive PluginInput
  | recv (e : Option PluginEvent)
  | timerFires
deriving DecidableEq, Repr

/-- The hook invocation the plugin loop can perform. -/
inductive PluginHookCall
  | on_autocmd (a : AutocmdEvent)
deriving DecidableEq, Repr

/-- Output of one plugin-loop iteration. -/
structure PStep where
  calls : List PluginHookCall
  state : PluginState
  control : LoopControl
deriving DecidableEq, Repr

/-- One iteration of the plugin session loop.  `event_delay` is the session's
fixed delay; the timer branch is disabled when the dirty guard is false. -/
def stepPlugin (event_delay : Nat) (now : Nat) (s : PluginState) :
    PluginInput → PStep
  | .recv none => ⟨[], s, .brk⟩
  | .recv (some (.Autocmd a)) =>
    ⟨[], { s with pending_autocmd := some a, notification_dirty := true,
                  notification_timer := now + event_delay }, .cont⟩
  | .timerFires =>
    if s.notification_dirty then
      match s.pending_autocmd with
      | some a =>
        ⟨[.on_autocmd a],
         { pending_autocmd := none, notification_dirty := false,
           notification_timer := now + NEVER }, .cont⟩
      | none =>
        ⟨[], { s with notification_dirty := false,
                      notification_timer := now + NEVER }, .cont⟩
    else ⟨[], s, .cont⟩

/-- Feed a timed burst of autocmd events (each pair is an arrival instant and
a payload) into the plugin loop, event by event. -/
def runPluginBurst (event_delay : Nat) (s : PluginState) :
    List (Nat × AutocmdEvent) → PluginState
  | [] => s
  | (now, a) :: rest =>
    runPluginBurst event_delay
      (stepPlugin event_delay now s (.recv (some (.Autocmd a)))).state rest

/-- Channel handles are opaque identifiers; a send is recorded as the pair of
the target handle and the event. -/
abbrev Chan := Nat

/-- `ProviderEventSender`: the registry value, a sender wrapped together with
its session id. -/
structure ProviderEventSender where
  chan : Chan
  session_id : ProviderSessionId
deriving DecidableEq, Repr

/-- A plugin send-handle; `closed` is whether its channel is closed at call
time (`send` fails exactly on closed channels). -/
structure PluginHandle where
  chan : Chan
  closed : Bool
deriving DecidableEq, Repr

/-- `ServiceManager`: the provider registry (a `HashMap`, embedded as an
association list whose keys are unique) and the plugin handle list. -/
structure ServiceManager where
  providers : List (ProviderSessionId × ProviderEventSender)
  plugins : List PluginHandle
deriving DecidableEq, Repr

/-- A send into a provider session's queue. -/
abbrev ProviderSend := Chan × ProviderEvent

/-- `ServiceManager::new_provider`: drain the registry, sending `Terminate`
to every drained sender, then insert the new session (the vacancy check is
kept though the drained map is always empty) and send it `OnInitialize`.
`newChan` is the freshly created channel. -/
def new_provider (m : ServiceManager) (id : ProviderSessionId) (newChan : Chan) :
    ServiceManager × List ProviderSend :=
  let terminateSends :=
    m.providers.map (fun p => (p.2.chan, ProviderEvent.Internal .Terminate))
  let drained : ServiceManager := { m with providers := [] }
  if (drained.providers.find? (fun p => p.1 == id)).isSome then
    (drained, terminateSends)
  else
    ({ drained with providers := [(id, ⟨newChan, id⟩)] },
     terminateSends ++ [(newChan, ProviderEvent.Internal .OnInitialize)])

/-- `ServiceManager::new_plugin`: spawn a plugin session (its fresh channel is
open) and append its handle. -/
def new_plugin (m : ServiceManager) (newChan : Chan) : ServiceManager :=
  { m with plugins := m.plugins ++ [⟨newChan, false⟩] }

/-- `ServiceManager::notify_plugins`: `retain` keeps exactly the handles whose
send succeeded; the event is delivered to each handle whose channel is open. -/
def notify_plugins (m : ServiceManager) (e : PluginEvent) :
    ServiceManager × List (Chan × PluginEvent) :=
  ({ m with plugins := m.plugins.filter (fun p => !p.closed) },
   (m.plugins.filter (fun p => !p.closed)).map (fun p => (p.chan, e)))

/-- `ServiceManager::exists`: membership in the provider registry. -/
def existsProvider (m : ServiceManager) (id : ProviderSessionId) : Bool :=
  (m.providers.find? (fun p => p.1 == id)).isSome

/-- `ServiceManager::notify_provider`: forward the event through the sender
registered for `id`; on an unknown id, log and drop the event.  `&self`: the
manager is returned unchanged. -/
def notify_provider (m : ServiceManager) (id : ProviderSessionId)
    (e : ProviderEvent) : ServiceManager × List ProviderSend :=
  match m.providers.find? (fun p => p.1 == id) with
  | some p => (m, [(p.2.chan, e)])
  | none => (m, [])

/-- `ServiceManager::notify_provider_exit`: remove the entry for `id` and
send `Exit` to the removed sender, if present. -/
def notify_provider_exit (m : ServiceManager) (id : ProviderSessionId) :
    ServiceManager × List ProviderSend :=
  match m.providers.find? (fun p => p.1 == id) with
  | some p =>
    ({ m with providers := m.providers.eraseP (fun q => q.1 == id) },
     [(p.2.chan, ProviderEvent.Exit)])
  | none => (m, [])

/-- `ServiceManager::try_exit`: `notify_provider_exit` guarded by `exists`. -/
def try_exit (m : ServiceManager) (id : ProviderSessionId) :
    ServiceManager × List ProviderSend :=
  if existsProvider m id then notify_provider_exit m id else (m, [])

/-! ## Theorems -/

/-- A debounced state with both dirty flags set, used to instantiate
hypothesis-bearing theorems. -/
def sampleDirtyState : DebounceState :=
  { on_move_dirty := true
    on_move_timer := 3
    on_typed_dirty := true
    on_typed_delay := DELAY
    on_typed_timer := 5 }

/-- C1: in debounced mode, the typed-timer firing with the typed dirty flag
set clears the flag, re-arms the typed timer to `NEVER`, performs exactly the
calls `recordInput`, `onTyped`, `onMove` in that order (so the typed hook runs
once and the move hook once, the typed hook's error never ending the loop),
and leaves the move timer, move dirty flag and typed delay unchanged; a raw
`OnTyped` event never invokes the typed hook. -/
theorem typed_timer_firing_behaviour (src : ProviderSource) (hr : HookResults)
    (now : Nat) (s : DebounceState) (h : s.on_typed_dirty = true) :
    (stepDebounce src hr now s .typedTimer).calls =
      [.recordInput, .onTyped, .onMove] ∧
    (stepDebounce src hr now s .typedTimer).state.on_typed_dirty = false ∧
    (stepDebounce src hr now s .typedTimer).state.on_typed_timer = now + NEVER ∧
    (stepDebounce src hr now s .typedTimer).state.on_move_dirty = s.on_move_dirty ∧
    (stepDebounce src hr now s .typedTimer).state.on_move_timer = s.on_move_timer ∧
    (stepDebounce src hr now s .typedTimer).state.on_typed_delay = s.on_typed_delay ∧
    (stepDebounce src hr now s .typedTimer).control = .cont ∧
    (stepDebounce src hr now s .typedTimer).calls.count .onTyped = 1 ∧
    (stepDebounce src hr now s (.recv (some .OnTyped))).calls.count .onTyped = 0 := by
  simp [stepDebounce, h, List.count_cons]

/-- C1 witness: the typed-timer firing at the sample dirty state. -/
theorem typed_timer_firing_behaviour_witness :
    (stepDebounce .Other ⟨.ok, .ok, .ok, .ok, .ok⟩ 7 sampleDirtyState
        .typedTimer).calls = [.recordInput, .onTyped, .onMove] ∧
    (stepDebounce .Other ⟨.ok, .ok, .ok, .ok, .ok⟩ 7 sampleDirtyState
        .typedTimer).state.on_typed_dirty = false ∧
    (stepDebounce .Other ⟨.ok, .ok, .ok, .ok, .ok⟩ 7 sampleDirtyState
        .typedTimer).state.on_typed_timer = 7 + NEVER ∧
    (stepDebounce .Other ⟨.ok, .ok, .ok, .ok, .ok⟩ 7 sampleDirtyState
        .typedTimer).state.on_move_dirty = sampleDirtyState.on_move_dirty ∧
    (stepDebounce .Other ⟨.ok, .ok, .ok, .ok, .ok⟩ 7 sampleDirtyState
        .typedTimer).state.on_move_timer = sampleDirtyState.on_move_timer ∧
    (stepDebounce .Other ⟨.ok, .ok, .ok, .ok, .ok⟩ 7 sampleDirtyState
        .typedTimer).state.on_typed_delay = sampleDirtyState.on_typed_delay ∧
    (stepDebounce .Other ⟨.ok, .ok, .ok, .ok, .ok⟩ 7 sampleDirtyState
        .typedTimer).control = .cont ∧
    (stepDebounce .Other ⟨.ok, .ok, .ok, .ok, .ok⟩ 7 sampleDirtyState
        .typedTimer).calls.count .onTyped = 1 ∧
    (stepDebounce .Other ⟨.ok, .ok, .ok, .ok, .ok⟩ 7 sampleDirtyState
        (.recv (some .OnTyped))).calls.count .onTyped = 0 :=
  typed_timer_firing_behaviour .Other ⟨.ok, .ok, .ok, .ok, .ok⟩ 7
    sampleDirtyState rfl

/-- C3: when initialize succeeds in debounced mode and the source scale is
`Small T`, the typed delay becomes 10ms for `T < 10_000`, 50ms for
`T < 100_000`, 100ms for `T < 200_000` and stays at the 200ms default
otherwise; for any other scale variant, and whenever initialize fails, the
delay stays at the default. -/
theorem adaptive_typed_delay_thresholds (hr : HookResults) (now : Nat)
    (s : DebounceState) (hdef : s.on_typed_delay = DELAY) :
    (∀ T, (stepDebounce (.Small T) { hr with init := .ok } now s
        (.recv (some (.Internal .OnInitialize)))).state.on_typed_delay =
      if T < 10000 then 10 else if T < 100000 then 50
      else if T < 200000 then 100 else DELAY) ∧
    (stepDebounce .Other { hr with init := .ok } now s
        (.recv (some (.Internal .OnInitialize)))).state.on_typed_delay = DELAY ∧
    (∀ src, (stepDebounce src { hr with init := .err } now s
        (.recv (some (.Internal .OnInitialize)))).state.on_typed_delay = DELAY) := by
  refine ⟨fun T => ?_, ?_, fun src => ?_⟩ <;>
    simp [stepDebounce, adjustTypedDelay, hdef]

/-- C3 witness: the thresholds evaluated at the initial state. -/
theorem adaptive_typed_delay_thresholds_witness :
    (∀ T, (stepDebounce (.Small T) ⟨.ok, .ok, .ok, .ok, .ok⟩ 0
        (initDebounceState 0)
        (.recv (some (.Internal .OnInitialize)))).state.on_typed_delay =
      if T < 10000 then 10 else if T < 100000 then 50
      else if T < 200000 then 100 else DELAY) ∧
    (stepDebounce .Other ⟨.ok, .ok, .ok, .ok, .ok⟩ 0 (initDebounceState 0)
        (.recv (some (.Internal .OnInitialize)))).state.on_typed_delay = DELAY ∧
    (∀ src, (stepDebounce src ⟨.err, .ok, .ok, .ok, .ok⟩ 0 (initDebounceState 0)
        (.recv (some (.Internal .OnInitialize)))).state.on_typed_delay = DELAY) :=
  adaptive_typed_delay_thresholds ⟨.err, .ok, .ok, .ok, .ok⟩ 0
    (initDebounceState 0) rfl

/-- C4 counterexample: when the initialize hook fails, neither loop invokes
the move hook while processing the Initialize signal, refuting "exactly once
regardless of whether the initialize hook succeeded or failed". -/
theorem init_failure_skips_move :
    (stepDebounce .Other ⟨.err, .ok, .ok, .ok, .ok⟩ 0 (initDebounceState 0)
      (.recv (some (.Internal .OnInitialize)))).calls.count .onMove = 0 ∧
    (stepNoDebounce ⟨.err, .ok, .ok, .ok, .ok⟩
      (some (.Internal .OnInitialize))).calls.count .onMove = 0 := by
  constructor <;> rfl

/-- C4 (amended): in both modes, processing the Initialize signal invokes the
move hook exactly once when the initialize hook succeeds and not at all when
it fails; the loop continues in either case, so neither hook's error is
propagated. -/
theorem init_move_iff_success (src : ProviderSource) (hr : HookResults)
    (now : Nat) (s : DebounceState) :
    ((stepDebounce src hr now s
        (.recv (some (.Internal .OnInitialize)))).calls.count .onMove =
      if hr.init = .ok then 1 else 0) ∧
    ((stepNoDebounce hr (some (.Internal .OnInitialize))).calls.count .onMove =
      if hr.init = .ok then 1 else 0) ∧
    (stepDebounce src hr now s
        (.recv (some (.Internal .OnInitialize)))).control = .cont ∧
    (stepNoDebounce hr (some (.Internal .OnInitialize))).control = .cont := by
  rcases hr with ⟨init, move, typed, key, record⟩
  cases init <;> simp [stepDebounce, stepNoDebounce, List.count_cons]

/-- C8: a Key event is handled immediately in both modes: exactly one
`onKeyEvent` call per Key event, the loop continues whatever the hook result,
and in debounced mode the dirty flags, timers and delay are untouched; over a
whole queue of Key events the hooks fire once each, in arrival order. -/
theorem key_events_immediate (src : ProviderSource) (hr : HookResults)
    (now : Nat) (s : DebounceState) (k : KeyEvent) :
    stepDebounce src hr now s (.recv (some (.Key k))) =
      ⟨[.onKeyEvent k], s, .cont⟩ ∧
    stepNoDebounce hr (some (.Key k)) = ⟨[.onKeyEvent k], .cont⟩ ∧
    (∀ ks : List KeyEvent, runLoopD src hr now s
        (ks.map fun k => .recv (some (.Key k))) = ks.map HookCall.onKeyEvent) ∧
    (∀ ks : List KeyEvent, runLoopND hr
        (ks.map fun k => some (.Key k)) = ks.map HookCall.onKeyEvent) := by
  refine ⟨rfl, rfl, fun ks => ?_, fun ks => ?_⟩
  · induction ks generalizing s with
    | nil => rfl
    | cons k ks ih => simp [runLoopD, stepDebounce, ih]
  · induction ks with
    | nil => rfl
    | cons k ks ih => simp [runLoopND, stepNoDebounce, ih]

/-- C7: in both modes the loop breaks exactly on a Terminate signal, an Exit
event or a closed queue; the termination hook runs exactly once in the
Terminate and Exit cases and never in the closed-queue case; since the
equivalences hold for every combination of hook results, no hook error ever
ends the loop. -/
theorem loop_exit_conditions (src : ProviderSource) (hr : HookResults)
    (now : Nat) (s : DebounceState) (inp : DebounceInput)
    (e : Option ProviderEvent) :
    ((stepDebounce src hr now s inp).control = .brk ↔
      (inp = .recv none ∨ inp = .recv (some (.Internal .Terminate)) ∨
       inp = .recv (some .Exit))) ∧
    ((stepDebounce src hr now s inp).calls.count .onTerminate =
      if inp = .recv (some (.Internal .Terminate)) ∨ inp = .recv (some .Exit)
      then 1 else 0) ∧
    ((stepNoDebounce hr e).control = .brk ↔
      (e = none ∨ e = some (.Internal .Terminate) ∨ e = some .Exit)) ∧
    ((stepNoDebounce hr e).calls.count .onTerminate =
      if e = some (.Internal .Terminate) ∨ e = some .Exit then 1 else 0) := by
  rcases hr with ⟨init, move, typed, key, record⟩
  refine ⟨?_, ?_, ?_, ?_⟩
  · rcases inp with ⟨_ | ⟨_ | i | _ | _ | _ | k⟩⟩ | _ | _
    all_goals try cases i
    all_goals try cases init
    all_goals
      by_cases hm : s.on_move_dirty <;> by_cases ht : s.on_typed_dirty <;>
        simp [stepDebounce, hm, ht]
  · rcases inp with ⟨_ | ⟨_ | i | _ | _ | _ | k⟩⟩ | _ | _
    all_goals try cases i
    all_goals try cases init
    all_goals
      by_cases hm : s.on_move_dirty <;> by_cases ht : s.on_typed_dirty <;>
        simp [stepDebounce, hm, ht, List.count_cons]
  · rcases e with _ | (_ | i | _ | _ | _ | k)
    all_goals try cases i
    all_goals try cases init
    all_goals simp [stepNoDebounce]
  · rcases e with _ | (_ | i | _ | _ | _ | k)
    all_goals try cases i
    all_goals try cases init
    all_goals simp [stepNoDebounce, List.count_cons]

/-- C2: `new_provider` leaves the registry holding exactly the new session's
entry, sends exactly one Terminate per previously registered session followed
by the new session's OnInitialize, and keeps the plugin list; the exit path,
the only other operation removing provider entries, never grows the registry
and keeps the plugin list too. -/
theorem new_provider_exclusivity (m : ServiceManager) (id : ProviderSessionId)
    (c : Chan) :
    (new_provider m id c).1.providers = [(id, ⟨c, id⟩)] ∧
    (new_provider m id c).2 =
      m.providers.map (fun p => (p.2.chan, ProviderEvent.Internal .Terminate))
        ++ [(c, ProviderEvent.Internal .OnInitialize)] ∧
    (new_provider m id c).1.plugins = m.plugins ∧
    (∀ m' : ServiceManager, ∀ id' : ProviderSessionId,
      (notify_provider_exit m' id').1.providers.length ≤
        m'.providers.length) := by
  refine ⟨by simp [new_provider], by simp [new_provider],
    by simp [new_provider], fun m' id' => ?_⟩
  unfold notify_provider_exit
  cases m'.providers.find? (fun p => p.1 == id') with
  | none => exact Nat.le_refl _
  | some p => exact (List.eraseP_sublist _).length_le

/-- Helper: after a non-empty burst of autocmd events the pending payload is
the last payload of the burst and the dirty flag is set. -/
theorem runPluginBurst_getLast (d : Nat) (evs : List (Nat × AutocmdEvent))
    (tn : Nat) (an : AutocmdEvent) :
    ∀ s, evs.getLast? = some (tn, an) →
      (runPluginBurst d s evs).pending_autocmd = some an ∧
      (runPluginBurst d s evs).notification_dirty = true := by
  induction evs with
  | nil => intro s h; simp at h
  | cons e rest ih =>
    intro s h
    cases rest with
    | nil =>
      obtain ⟨rfl, rfl⟩ : e = (tn, an) := by simpa using h
      simp [runPluginBurst, stepPlugin]
    | cons e2 r2 =>
      rw [List.getLast?_cons_cons] at h
      exact ih _ h

/-- C5: every autocmd event of a burst overwrites the pending payload, sets
the dirty flag and re-arms the timer to the session delay; when the timer
then fires, the hook is invoked exactly once with the burst's last payload,
the dirty flag is cleared, the pending payload is taken and the timer is
re-armed to `NEVER`. -/
theorem plugin_burst_last_write_wins (d : Nat) (s : PluginState)
    (evs : List (Nat × AutocmdEvent)) (t tn : Nat) (an : AutocmdEvent)
    (h : evs.getLast? = some (tn, an)) :
    (∀ now a s', stepPlugin d now s' (.recv (some (.Autocmd a))) =
      ⟨[], { s' with pending_autocmd := some a, notification_dirty := true,
                     notification_timer := now + d }, .cont⟩) ∧
    stepPlugin d t (runPluginBurst d s evs) .timerFires =
      ⟨[.on_autocmd an],
       { pending_autocmd := none, notification_dirty := false,
         notification_timer := t + NEVER }, .cont⟩ := by
  obtain ⟨hp, hd⟩ := runPluginBurst_getLast d evs tn an s h
  exact ⟨fun now a s' => rfl, by simp [stepPlugin, hd, hp]⟩

/-- C5 witness: a burst carrying payloads 1, 2, 3 delivers exactly
`on_autocmd 3`. -/
theorem plugin_burst_last_write_wins_witness :
    (∀ now a s', stepPlugin 50 now s' (.recv (some (.Autocmd a))) =
      ⟨[], { s' with pending_autocmd := some a, notification_dirty := true,
                     notification_timer := now + 50 }, .cont⟩) ∧
    stepPlugin 50 100
        (runPluginBurst 50 (initPluginState 0) [(0, 1), (10, 2), (20, 3)])
        .timerFires =
      ⟨[.on_autocmd 3],
       { pending_autocmd := none, notification_dirty := false,
         notification_timer := 100 + NEVER }, .cont⟩ :=
  plugin_burst_last_write_wins 50 (initPluginState 0)
    [(0, 1), (10, 2), (20, 3)] 100 20 3 rfl

/-- C6: `notify_plugins` delivers the event to exactly the handles whose
channel is open at call time and retains exactly those handles, keeping the
provider registry; no other supervisor operation removes a plugin handle
(`new_plugin` only appends). -/
theorem notify_plugins_prunes_closed (m : ServiceManager) (e : PluginEvent) :
    (∀ p : PluginHandle, p ∈ (notify_plugins m e).1.plugins ↔
      p ∈ m.plugins ∧ p.closed = false) ∧
    (notify_plugins m e).2 =
      (m.plugins.filter (fun p => !p.closed)).map (fun p => (p.chan, e)) ∧
    (notify_plugins m e).1.providers = m.providers ∧
    (∀ id c, (new_provider m id c).1.plugins = m.plugins) ∧
    (∀ id, (notify_provider_exit m id).1.plugins = m.plugins) ∧
    (∀ id, (try_exit m id).1.plugins = m.plugins) ∧
    (∀ id ev, (notify_provider m id ev).1.plugins = m.plugins) ∧
    (∀ c, (new_plugin m c).plugins = m.plugins ++ [⟨c, false⟩]) := by
  have hexit : ∀ id, (notify_provider_exit m id).1.plugins = m.plugins := by
    intro id
    unfold notify_provider_exit
    cases m.providers.find? (fun p => p.1 == id) <;> rfl
  have hnp : ∀ id ev, (notify_provider m id ev).1.plugins = m.plugins := by
    intro id ev
    unfold notify_provider
    cases m.providers.find? (fun p => p.1 == id) <;> rfl
  refine ⟨fun p => ?_, rfl, rfl, fun id c => by simp [new_provider],
    hexit, fun id => ?_, hnp, fun c => rfl⟩
  · simp [notify_plugins, List.mem_filter]
  · unfold try_exit
    by_cases h : existsProvider m id <;> simp [h, hexit]

/-- C9: `notify_provider` on an id absent from the registry changes nothing
and sends nothing (the event is dropped after logging, no panic: the
function is total); on a registered id it forwards the event through that
session's sender without mutating the registry. -/
theorem notify_provider_unknown_id (m : ServiceManager)
    (id : ProviderSessionId) (e : ProviderEvent) :
    (m.providers.find? (fun p => p.1 == id) = none →
      notify_provider m id e = (m, [])) ∧
    (∀ p, m.providers.find? (fun p => p.1 == id) = some p →
      notify_provider m id e = (m, [(p.2.chan, e)])) :=
  ⟨fun h => by simp [notify_provider, h],
   fun p h => by simp [notify_provider, h]⟩

/-- C9 witness: dispatch to id 5 on an empty registry is a no-op. -/
theorem notify_provider_unknown_id_witness :
    notify_provider ⟨[], []⟩ 5 .OnMove = (⟨[], []⟩, []) :=
  (notify_provider_unknown_id ⟨[], []⟩ 5 .OnMove).1 rfl

/-- Helper: erasing an id's entry from an association list with unique keys
leaves no entry for that id. -/
theorem find?_eraseP_key (id : ProviderSessionId)
    (l : List (ProviderSessionId × ProviderEventSender))
    (h : (l.map Prod.fst).Nodup) :
    (l.eraseP (fun q => q.1 == id)).find? (fun q => q.1 == id) = none := by
  induction l with
  | nil => rfl
  | cons p rest ih =>
    simp only [List.map_cons, List.nodup_cons] at h
    by_cases hp : p.1 = id
    · rw [List.eraseP_cons_of_pos (by simpa using hp)]
      rw [List.find?_eq_none]
      intro q hq
      simp only [beq_iff_eq]
      intro hq1
      apply h.1
      have hmem : q.1 ∈ rest.map Prod.fst := List.mem_map_of_mem Prod.fst hq
      rwa [hq1, ← hp] at hmem
    · rw [List.eraseP_cons_of_neg (by simpa using hp)]
      rw [List.find?_cons_of_neg _ (by simpa using hp)]
      exact ih h.2

/-- C10: with unique registry keys, `try_exit` is observationally identical
to `notify_provider_exit`; after the call the id is no longer registered,
and on an unregistered id the manager is unchanged and no signal is sent. -/
theorem try_exit_removes_before_exit (m : ServiceManager)
    (id : ProviderSessionId) (hnd : (m.providers.map Prod.fst).Nodup) :
    try_exit m id = notify_provider_exit m id ∧
    existsProvider (try_exit m id).1 id = false ∧
    (existsProvider m id = false → try_exit m id = (m, [])) := by
  have heq : try_exit m id = notify_provider_exit m id := by
    unfold try_exit
    by_cases h : existsProvider m id
    · simp [h]
    · have hn : m.providers.find? (fun p => p.1 == id) = none := by
        unfold existsProvider at h
        exact Option.not_isSome_iff_eq_none.mp h
      simp [h, notify_provider_exit, hn]
  refine ⟨heq, ?_, fun h => by simp [try_exit, h]⟩
  rw [heq]
  unfold notify_provider_exit
  cases hf : m.providers.find? (fun p => p.1 == id) with
  | none => simpa [existsProvider] using hf
  | some p => simpa [existsProvider] using find?_eraseP_key id m.providers hnd

/-- C10 witness: exiting the only registered session removes it. -/
theorem try_exit_removes_before_exit_witness :
    try_exit ⟨[(1, ⟨2, 1⟩)], []⟩ 1 = notify_provider_exit ⟨[(1, ⟨2, 1⟩)], []⟩ 1 ∧
    existsProvider (try_exit ⟨[(1, ⟨2, 1⟩)], []⟩ 1).1 1 = false ∧
    (existsProvider ⟨[(1, ⟨2, 1⟩)], []⟩ 1 = false →
      try_exit ⟨[(1, ⟨2, 1⟩)], []⟩ 1 = (⟨[(1, ⟨2, 1⟩)], []⟩, [])) :=
  try_exit_removes_before_exit ⟨[(1, ⟨2, 1⟩)], []⟩ 1 (by simp)

end VimClap
